import Mathlib

/-!
Verification development for the tutor agent repository.

The development shallowly embeds the two core source files:

* `src/tutor_agent.py` — the `TutorAgent` class: query parsing
  (`parse_student_info`), the deterministic invocation pipeline (`invoke`)
  and the markdown renderer (`get_formatted_response`).
* `src/tutor_task_manager.py` — the `TutorTaskManager` class:
  `on_send_task`, `on_send_task_subscribe`, `_update_store`,
  `_invoke` and `_get_user_query`.

Stateful Python code becomes explicit state passing: the in-memory task
store (a dict of tasks plus a dict of message histories, owned by the
library base class `InMemoryTaskManager`) is a `Store` value threaded
through every operation, and Python exceptions become an explicit
`raised` outcome carrying the exception message, so that mutations
performed before an escaping exception stay visible.

Library code that is not part of the repository (`upsert_task`,
`are_modalities_compatible`, the streaming request validator) is
modelled from the spec; each such definition says so in its doc comment.

Abstractions: `uuid4().hex` identifiers are opaque strings that no
observable output depends on; they are modelled as `""`.  Python
`str.strip` / `str.lower` / `str.replace` and friends are modelled by
structurally recursive functions over `List Char` (`pyStrip`,
`pyToLower`, `pyReplace`, ...) so concrete runs reduce in the kernel.
Python `str.format` is modelled by the one-pass scanner `pyFormat`,
which substitutes each named field without rescanning the substituted
value and raises (as an `Except.error` carrying `str(e)`) exactly where
`str.format` raises on the inputs this program can produce; see its doc
comment for the modelled subset.
-/

namespace TutorModel

/-! ## Python string helpers

All Python string operations are modelled by structurally recursive
functions over `List Char` (rather than the opaque `String` library
functions) so that every definition evaluates inside the kernel on
concrete inputs. -/

/-- Whether the first list starts with the second. -/
def startsWithChars : List Char → List Char → Bool
  | _, [] => true
  | [], _ :: _ => false
  | c :: cs, p :: ps => c == p && startsWithChars cs ps

/-- Whether `pat` occurs in `s` (both non-empty in every use). -/
def containsChars (pat : List Char) : List Char → Bool
  | [] => pat.isEmpty
  | c :: cs => startsWithChars (c :: cs) pat || containsChars pat cs

/-- Python `pat in s` substring test. -/
def containsSub (s pat : String) : Bool :=
  containsChars pat.data s.data

/-- Count of non-overlapping occurrences of `pat` (Python `s.count`);
the `Nat` argument skips the remainder of a just-matched occurrence. -/
def countSubCore (pat : List Char) : List Char → Nat → Nat
  | [], _ => 0
  | c :: cs, 0 =>
      if startsWithChars (c :: cs) pat && !pat.isEmpty then
        1 + countSubCore pat cs (pat.length - 1)
      else countSubCore pat cs 0
  | _ :: cs, k + 1 => countSubCore pat cs k

/-- Number of non-overlapping occurrences of a non-empty pattern. -/
def countSub (s pat : String) : Nat :=
  countSubCore pat.data s.data 0

/-- Leftmost, non-overlapping replacement of every occurrence of `pat`
by `repl` (Python `s.replace(pat, repl)` for non-empty `pat`); the `Nat`
argument skips the remainder of a just-matched occurrence. -/
def replaceCore (pat repl : List Char) : List Char → Nat → List Char
  | [], _ => []
  | c :: cs, 0 =>
      if startsWithChars (c :: cs) pat && !pat.isEmpty then
        repl ++ replaceCore pat repl cs (pat.length - 1)
      else c :: replaceCore pat repl cs 0
  | c :: cs, k + 1 => replaceCore pat repl cs k

/-- Python `s.replace(pat, repl)` for a non-empty pattern. -/
def pyReplace (s pat repl : String) : String :=
  String.mk (replaceCore pat.data repl.data s.data 0)

/-- Split at the first occurrence of a separator character, returning
the part after it (Python `line.split(sep, 1)[1]`); `none` when the
separator does not occur (Python would raise `IndexError` on `[1]`). -/
def splitFirstAfter (sep : Char) : List Char → Option (List Char)
  | [] => none
  | c :: cs => if c == sep then some cs else splitFirstAfter sep cs

/-- Python `line.split(":", 1)[1]`: everything after the first colon.
Callers in the source only reach the `[1]` index when a colon is present
(the line was matched against a pattern containing `":"`), so the
no-colon branch is unreachable there. -/
def afterFirstColon (line : String) : String :=
  match splitFirstAfter ':' line.data with
  | none => ""
  | some rest => String.mk rest

/-- Split on every occurrence of a separator character
(Python `s.split(sep)` for a one-character separator). -/
def splitChar (sep : Char) : List Char → List Char → List (List Char)
  | [], acc => [acc.reverse]
  | c :: cs, acc =>
      if c == sep then acc.reverse :: splitChar sep cs []
      else splitChar sep cs (c :: acc)

/-- Python whitespace for `str.strip`: space, tab, newline, carriage
return, vertical tab, form feed. -/
def pyIsSpace (c : Char) : Bool :=
  c == ' ' || c == '\t' || c == '\n' || c == '\r' || c == '\x0b' || c == '\x0c'

/-- Python `s.strip()`. -/
def pyStrip (s : String) : String :=
  String.mk (((s.data.dropWhile pyIsSpace).reverse.dropWhile pyIsSpace).reverse)

/-- Python `s.lower()` (ASCII inputs here). -/
def pyToLower (s : String) : String :=
  String.mk (s.data.map Char.toLower)

/-- Python `query.strip().split('\n')` from `parse_student_info`. -/
def pyLines (query : String) : List String :=
  (splitChar '\n' (pyStrip query).data []).map String.mk

/-- Python `str.capitalize`: first character upper-cased, the rest
lower-cased (used on resource types, all ASCII). -/
def pyCapitalize (s : String) : String :=
  match s.data with
  | [] => ""
  | c :: cs => String.mk (c.toUpper :: cs.map Char.toLower)

/-- Python `sep.join(items)`. -/
def joinSep (sep : String) : List String → String
  | [] => ""
  | [x] => x
  | x :: xs => x ++ sep ++ joinSep sep xs

/-- First-match association-list lookup, modelling both `dict[key]` and
keyword-argument lookup (keys are unique in every use). -/
def lookupAssoc {α : Type} : List (String × α) → String → Option α
  | [], _ => none
  | (k, v) :: rest, key => if k = key then some v else lookupAssoc rest key

/-- Python `repr` of a string as it appears in `str(KeyError(name))`:
double quotes when the text contains a single quote and no double
quote, single quotes otherwise (the names arising here need no inner
escaping). -/
def pyQuoteRepr (s : String) : String :=
  if s.data.contains '\x27' && !(s.data.contains '"') then "\"" ++ s ++ "\""
  else "\x27" ++ s ++ "\x27"

/-- The field name of a replacement field: the text before the first
`:` (format spec) or `!` (conversion). -/
def fieldName (f : List Char) : List Char :=
  f.takeWhile (fun c => c != ':' && c != '!')

/-- Whether a replacement field carries a conversion or a format spec. -/
def fieldHasSpecOrConv (f : List Char) : Bool :=
  f.any (fun c => c == ':' || c == '!')

/-- Resolution of one replacement field of Python `str.format(**kwargs)`
(field text `f`, braces excluded).  An empty or all-digit name is a
positional index: `IndexError` with Python's exact message, since the
source never passes positional arguments.  A name not among the keyword
arguments is a `KeyError` whose `str` is the Python `repr` of the name —
this is the one format failure the repository's own flow can reach (a
second `invoke` formats a materials description containing the dict
repr `{'id': ...}`, so the field name is `'id'`).  A found name with a
conversion or format spec, or with attribute/index access in the name,
is outside the modelled subset and is mapped to the failure path (the
real `str.format` can succeed there; no field in the repository's
templates carries one, and no theorem in this file relies on those
inputs). -/
def substField (kwargs : List (String × String)) (f : List Char) : Except String String :=
  let name := fieldName f
  if name.isEmpty || name.all Char.isDigit then
    Except.error ("Replacement index " ++ (if name.isEmpty then "0" else String.mk name) ++
      " out of range for positional args tuple")
  else
    match lookupAssoc kwargs (String.mk name) with
    | none => Except.error (pyQuoteRepr (String.mk name))
    | some v =>
        if fieldHasSpecOrConv f then
          Except.error ("unmodelled replacement field " ++ pyQuoteRepr (String.mk f))
        else Except.ok v

/-- One left-to-right pass of Python `str.format(**kwargs)`.  The second
argument is the scanner mode: `none` scans literal text (`{{` and `}}`
are escaped braces, a lone `}` is a `ValueError`), `some f` is inside a
replacement field with reversed accumulated field text `f`, closed by
the first `}` (no field arising here nests braces).  A substituted
value is emitted verbatim and never rescanned — exactly as `str.format`
substitutes — so values containing placeholder-like text stay literal. -/
def pyFormatAux (kwargs : List (String × String)) :
    List Char → Option (List Char) → Except String (List Char)
  | [], none => Except.ok []
  | [], some _ => Except.error "expected \x27\x7d\x27 before end of string"
  | '\x7b' :: '\x7b' :: rest, none =>
      match pyFormatAux kwargs rest none with
      | Except.ok out => Except.ok ('\x7b' :: out)
      | Except.error e => Except.error e
  | '\x7d' :: '\x7d' :: rest, none =>
      match pyFormatAux kwargs rest none with
      | Except.ok out => Except.ok ('\x7d' :: out)
      | Except.error e => Except.error e
  | ['\x7b'], none => Except.error "Single \x27\x7b\x27 encountered in format string"
  | ['\x7d'], none => Except.error "Single \x27\x7d\x27 encountered in format string"
  | '\x7b' :: c :: rest, none => pyFormatAux kwargs (c :: rest) (some [])
  | '\x7d' :: _ :: _, none => Except.error "Single \x27\x7d\x27 encountered in format string"
  | c :: rest, none =>
      match pyFormatAux kwargs rest none with
      | Except.ok out => Except.ok (c :: out)
      | Except.error e => Except.error e
  | '\x7d' :: rest, some f =>
      match substField kwargs f.reverse with
      | Except.error e => Except.error e
      | Except.ok v =>
          match pyFormatAux kwargs rest none with
          | Except.ok out => Except.ok (v.data ++ out)
          | Except.error e => Except.error e
  | c :: rest, some f => pyFormatAux kwargs rest (some (c :: f))

/-- Python `template.format(**kwargs)`: one pass over the template,
substituting each named field with its value without rescanning it, or
the `str` of the exception `str.format` raises. -/
def pyFormat (s : String) (kwargs : List (String × String)) : Except String String :=
  match pyFormatAux kwargs s.data none with
  | Except.ok out => Except.ok (String.mk out)
  | Except.error e => Except.error e

/-! ## TutorAgent: student-info parsing (src/tutor_agent.py lines 216-234) -/

/-- Result of `TutorAgent.parse_student_info`: the dict
`{"topic": ..., "student_background": ..., "student_goals": ...}`. -/
structure StudentInfo where
  topic : String
  student_background : String
  student_goals : String
deriving DecidableEq, Repr

/-- One iteration of the `for line in lines` loop of
`parse_student_info` (src/tutor_agent.py lines 226-232): `if`/`elif`
chain on case-insensitive substring matches; a matching line overwrites
the field with the stripped text after the line's first colon. -/
def parseLine (info : StudentInfo) (line : String) : StudentInfo :=
  if containsSub (pyToLower line) "topic:" then
    { info with topic := pyStrip (afterFirstColon line) }
  else if containsSub (pyToLower line) "background:" then
    { info with student_background := pyStrip (afterFirstColon line) }
  else if containsSub (pyToLower line) "goals:" then
    { info with student_goals := pyStrip (afterFirstColon line) }
  else
    info

/-- `TutorAgent.parse_student_info` (src/tutor_agent.py lines 216-234):
fields start empty and the loop runs over the stripped query's lines. -/
def parse_student_info (query : String) : StudentInfo :=
  (pyLines query).foldl parseLine ⟨"", "", ""⟩

/-! ## TutorAgent: data model of the invocation result -/

/-- A learning gap as it appears in the `assessment_data` dict built by
`TutorAgent.invoke` (src/tutor_agent.py lines 263-281).  The `uuid4().hex`
`id` is abstracted as the opaque string `""`: no observable output of the
program depends on it. -/
structure Gap where
  id : String
  topic : String
  description : String
  severity : Nat
  recommended_materials : List String
deriving DecidableEq, Repr

/-- A recommended resource dict (src/tutor_agent.py lines 307-331). -/
structure Resource where
  title : String
  type : String
  difficulty : String
  url : String
deriving DecidableEq, Repr

/-- The `assessment_data` dict (src/tutor_agent.py lines 263-281). -/
structure Assessment where
  assessed_level : String
  identified_gaps : List Gap
deriving DecidableEq, Repr

/-- The `learning_plan_data` dict (src/tutor_agent.py lines 334-341),
with the `uuid4().hex` `id` abstracted away. -/
structure LearningPlan where
  student_level : String
  gaps : List Gap
  recommended_resources : List Resource
  milestones : List String
  estimated_time : Nat
deriving DecidableEq, Repr

/-- Return value of `TutorAgent.invoke`: either the soft-error dict
`{"error": msg}` or the combined `{"assessment": ..., "learning_plan": ...}`
dict (src/tutor_agent.py lines 242, 344-349). -/
inductive InvokeResult where
  | error (msg : String)
  | ok (assessment : Assessment) (learning_plan : LearningPlan)
deriving DecidableEq, Repr

/-! ## TutorAgent: mutable state -/

/-- The fields of the `TutorAgent` object that `invoke` assigns to:
`self.assessment_task.description` (src/tutor_agent.py line 259) and
`self.materials_task.description` (line 290).  The LLM/agent/crew
framework objects held by the other fields are external collaborators
the repository never reassigns; they are outside the model. -/
structure TutorAgentState where
  assessment_task_description : String
  materials_task_description : String
deriving DecidableEq, Repr

/-- The assessment task description template (src/tutor_agent.py
lines 186-194). -/
def assessmentTaskTemplate : String :=
  "Analyze the student\x27s information: topic of interest \x27{topic}\x27, " ++
  "background \x27{student_background}\x27, and goals \x27{student_goals}\x27. " ++
  "Use the AssessStudentTool to conduct a thorough assessment and identify learning gaps."

/-- The materials task description template (src/tutor_agent.py
lines 197-206). -/
def materialsTaskTemplate : String :=
  "Based on the assessment results, create personalized learning materials for the student. " ++
  "Topic: \x27{topic}\x27, Identified gaps: {identified_gaps}, Student level: {student_level}, " ++
  "Student goals: \x27{student_goals}\x27. Use the CreateLearningMaterialsTool to generate " ++
  "a customized learning plan with appropriate resources and milestones."

/-- A freshly constructed `TutorAgent` (src/tutor_agent.py `__init__`):
both task descriptions hold their unformatted templates. -/
def initialTutorAgent : TutorAgentState :=
  { assessment_task_description := assessmentTaskTemplate,
    materials_task_description := materialsTaskTemplate }

/-! ## TutorAgent: invoke pipeline (src/tutor_agent.py lines 236-353) -/

/-- Python `repr` of a string: single quotes around the text (none of the
strings interpolated by the source contain quotes to escape). -/
def pyStrRepr (s : String) : String := "\x27" ++ s ++ "\x27"

/-- Python `str` of one gap dict, as interpolated into the materials task
description by `.format(identified_gaps=...)` (src/tutor_agent.py
lines 284-289). -/
def gapDictRepr (g : Gap) : String :=
  "\x7b" ++ pyStrRepr "id" ++ ": " ++ pyStrRepr g.id ++ ", " ++
  pyStrRepr "topic" ++ ": " ++ pyStrRepr g.topic ++ ", " ++
  pyStrRepr "description" ++ ": " ++ pyStrRepr g.description ++ ", " ++
  pyStrRepr "severity" ++ ": " ++ toString g.severity ++ ", " ++
  pyStrRepr "recommended_materials" ++ ": [" ++
  joinSep ", " (g.recommended_materials.map pyStrRepr) ++ "]\x7d"

/-- Python `str` of the `identified_gaps` list of dicts. -/
def gapsRepr (gs : List Gap) : String :=
  "[" ++ joinSep ", " (gs.map gapDictRepr) ++ "]"

/-- First simulated gap of `assessment_data` (src/tutor_agent.py
lines 266-272). -/
def fundamentalsGap (topic : String) : Gap :=
  { id := "",
    topic := "Fundamentals of " ++ topic,
    description := "Gaps in basic understanding of " ++ topic ++ " fundamentals",
    severity := 3,
    recommended_materials := ["Basic tutorials", "Introductory courses"] }

/-- Second simulated gap of `assessment_data` (src/tutor_agent.py
lines 273-279). -/
def advancedGap (topic : String) : Gap :=
  { id := "",
    topic := "Advanced " ++ topic ++ " concepts",
    description := "Limited knowledge of advanced " ++ topic ++ " principles",
    severity := 4,
    recommended_materials := ["Advanced courses", "Technical documentation"] }

/-- `gap['topic'].lower().replace(' ', '-')` URL slug. -/
def urlSlug (s : String) : String :=
  pyReplace (pyToLower s) " " "-"

/-- The two resources generated for one gap (src/tutor_agent.py
lines 307-320), with `assessed_level` passed in. -/
def gapResources (level : String) (g : Gap) : List Resource :=
  [ { title := "Understanding " ++ g.topic,
      type := "article",
      difficulty := if level = "beginner" then "beginner" else "intermediate",
      url := "https://example.com/learn/" ++ urlSlug g.topic },
    { title := "Interactive " ++ g.topic ++ " Exercises",
      type := "practice",
      difficulty := level,
      url := "https://example.com/practice/" ++ urlSlug g.topic } ]

/-- The `student_background` value after the default of
src/tutor_agent.py lines 245-246. -/
def bgOrDefault (info : StudentInfo) : String :=
  if info.student_background = "" then "No background information provided."
  else info.student_background

/-- The `student_goals` value after the default of
src/tutor_agent.py lines 247-248. -/
def goalsOrDefault (info : StudentInfo) : String :=
  if info.student_goals = "" then "General knowledge improvement."
  else info.student_goals

/-- The keyword arguments of the assessment-description `.format` call
(src/tutor_agent.py lines 254-258). -/
def assessKwargs (info : StudentInfo) : List (String × String) :=
  [("topic", info.topic),
   ("student_background", bgOrDefault info),
   ("student_goals", goalsOrDefault info)]

/-- The keyword arguments of the materials-description `.format` call
(src/tutor_agent.py lines 284-289): `identified_gaps` is the Python
`str` of the simulated gaps list, `student_level` the simulated
`"intermediate"`. -/
def materialsKwargs (info : StudentInfo) : List (String × String) :=
  [("topic", info.topic),
   ("identified_gaps", gapsRepr [fundamentalsGap info.topic, advancedGap info.topic]),
   ("student_level", "intermediate"),
   ("student_goals", goalsOrDefault info)]

/-- Path description of `TutorAgent.invoke` (src/tutor_agent.py
lines 236-353), split below into `tutorInvokeRest` and `tutorInvoke`:

* Missing topic returns the soft-error dict and leaves the agent state
  untouched (lines 241-242), before any formatting.
* Otherwise, inside the `try` block: the assessment description is
  `.format`-ted and assigned back (lines 254-259) — if that call
  raises, the `except` at lines 351-353 returns
  `{"error": "Failed to generate learning plan: " + str(e)}` with the
  agent unchanged.  Then the materials description is `.format`-ted
  from its pre-call value and assigned back (lines 284-290) — if that
  call raises (it does whenever the description already contains the
  dict-repr braces left by a previous successful invoke), the same
  `except` returns the error dict with the assessment description
  already mutated but the materials description untouched.  On success
  of both calls, the crew kickoff is attempted with its result (or
  failure) discarded (lines 293-298, modelled as a no-op) and the
  simulated assessment and learning-plan dicts are combined into the
  result (lines 263-349); nothing later in the `try` block can raise.

This definition is that last, never-raising tail of the `try` block
(lines 293-349): crew kickoff discarded, then the simulated resources,
milestones and plan. -/
def tutorInvokeRest (ag2 : TutorAgentState) (info : StudentInfo) :
    TutorAgentState × InvokeResult :=
  let goals := goalsOrDefault info
  let gaps := [fundamentalsGap info.topic, advancedGap info.topic]
  let assessment : Assessment := { assessed_level := "intermediate", identified_gaps := gaps }
  let resources := gaps.foldr (fun g acc => gapResources assessment.assessed_level g ++ acc) []
  let milestones := gaps.map (fun g => "Master the basics of " ++ g.topic)
  let resources2 :=
    if containsSub (pyToLower goals) "mastery" || containsSub (pyToLower goals) "advanced" then
      resources ++
        [ { title := "Advanced " ++ info.topic ++ " Masterclass",
            type := "course",
            difficulty := "advanced",
            url := "https://example.com/courses/advanced-" ++ urlSlug info.topic } ]
    else resources
  let milestones2 :=
    if containsSub (pyToLower goals) "mastery" || containsSub (pyToLower goals) "advanced" then
      milestones ++ ["Complete advanced " ++ info.topic ++ " project"]
    else milestones
  let plan : LearningPlan :=
    { student_level := assessment.assessed_level,
      gaps := gaps,
      recommended_resources := resources2,
      milestones := milestones2,
      estimated_time := 20 }
  (ag2, InvokeResult.ok assessment plan)

/-- `TutorAgent.invoke` proper: missing-topic check, then the two
`.format` calls with their mutations and failure paths, then
`tutorInvokeRest` (see the path description above `tutorInvokeRest`). -/
def tutorInvoke (ag : TutorAgentState) (query : String) (_sessionId : String) :
    TutorAgentState × InvokeResult :=
  let info := parse_student_info query
  if info.topic = "" then
    (ag, InvokeResult.error "Please specify a topic of interest.")
  else
    match pyFormat ag.assessment_task_description (assessKwargs info) with
    | Except.error e =>
        (ag, InvokeResult.error ("Failed to generate learning plan: " ++ e))
    | Except.ok newAssessDesc =>
        let ag1 : TutorAgentState := { ag with assessment_task_description := newAssessDesc }
        match pyFormat ag.materials_task_description (materialsKwargs info) with
        | Except.error e =>
            (ag1, InvokeResult.error ("Failed to generate learning plan: " ++ e))
        | Except.ok newMatDesc =>
            tutorInvokeRest { ag1 with materials_task_description := newMatDesc } info

/-! ## TutorAgent: response formatting (src/tutor_agent.py lines 355-381) -/

/-- The numbered milestone lines: `enumerate(plan["milestones"], 1)`. -/
def numberedFrom : Nat → List String → String
  | _, [] => ""
  | i, m :: ms => toString i ++ ". " ++ m ++ "\n" ++ numberedFrom (i + 1) ms

/-- `TutorAgent.get_formatted_response` (src/tutor_agent.py
lines 355-381): `"Error: ..."` when the result dict carries `"error"`,
otherwise the markdown learning-plan document. -/
def get_formatted_response : InvokeResult → String
  | InvokeResult.error msg => "Error: " ++ msg
  | InvokeResult.ok assessment plan =>
      "# Personalized Learning Plan\n\n" ++
      "## Student Assessment\n" ++
      "Current knowledge level: " ++ assessment.assessed_level ++ "\n\n" ++
      "## Identified Learning Gaps\n" ++
      String.join (assessment.identified_gaps.map (fun g =>
        "- " ++ g.topic ++ ": " ++ g.description ++
        " (Severity: " ++ toString g.severity ++ "/5)\n")) ++
      "\n## Recommended Learning Resources\n" ++
      String.join (plan.recommended_resources.map (fun r =>
        "- [" ++ r.title ++ "](" ++ r.url ++ ") - " ++
        pyCapitalize r.type ++ ", " ++ r.difficulty ++ " level\n")) ++
      "\n## Learning Milestones\n" ++
      numberedFrom 1 plan.milestones ++
      "\n## Estimated Time to Complete: " ++ toString plan.estimated_time ++ " hours\n"

/-! ## Protocol data model (agent2agent types, as used by the repository) -/

/-- A message content part: `TextPart` or any other (unsupported) part
type, identified by its type tag. -/
inductive Part where
  | text (text : String)
  | other (kind : String)
deriving DecidableEq, Repr

/-- A protocol message: role plus ordered parts. -/
structure Message where
  role : String
  parts : List Part
deriving DecidableEq, Repr

/-- An artifact: ordered parts (this core only ever produces text parts). -/
structure Artifact where
  parts : List Part
deriving DecidableEq, Repr

/-- Task lifecycle states used by this core: `SUBMITTED` initial,
`COMPLETED`/`FAILED` terminal. -/
inductive TaskState where
  | submitted
  | completed
  | failed
deriving DecidableEq, Repr

/-- `TaskStatus`: state plus optional message to append to history. -/
structure TaskStatus where
  state : TaskState
  message : Option Message
deriving DecidableEq, Repr

/-- A task record held by the store. -/
structure Task where
  id : String
  sessionId : String
  status : TaskStatus
  artifacts : Option (List Artifact)
deriving DecidableEq, Repr

/-- `TaskSendParams` of a send-task request. -/
structure TaskSendParams where
  id : String
  sessionId : String
  message : Option Message
  acceptedOutputModes : List String
deriving DecidableEq, Repr

/-- A `SendTaskRequest`: JSON-RPC request id plus params. -/
structure SendTaskRequest where
  rid : String
  params : TaskSendParams
deriving DecidableEq, Repr

/-! ## The in-memory task store -/

/-- The mutable state of `InMemoryTaskManager`: `self.tasks` (dict from
task id to `Task`) and `self.task_messages` (dict from task id to the
message history), both modelled as association lists with unique keys
looked up first-match. -/
structure Store where
  tasks : List (String × Task)
  taskMessages : List (String × List Message)
deriving DecidableEq, Repr

/-- Overwrite the value at a key that is present (modelling assignment
to an existing dict entry); a no-op when the key is absent. -/
def setAssoc {α : Type} : List (String × α) → String → α → List (String × α)
  | [], _, _ => []
  | (k, v) :: rest, key, w =>
      if k = key then (k, w) :: rest else (k, v) :: setAssoc rest key w

/-- `self.tasks[task_id]` on the store. -/
def lookupTask (s : Store) (tid : String) : Option Task :=
  lookupAssoc s.tasks tid

/-- Append one message to an existing task's history, modelling
`self.task_messages[task_id].append(...)`; in the modelled flows the
entry exists whenever the task does (Python would raise `KeyError`
otherwise). -/
def appendTaskMessage (ms : List (String × List Message)) (tid : String) (m : Message) :
    List (String × List Message) :=
  match lookupAssoc ms tid with
  | none => ms
  | some history => setAssoc ms tid (history ++ [m])

/-- The store of a freshly started server: both dicts empty. -/
def emptyStore : Store := { tasks := [], taskMessages := [] }

/-- The task record created for an unseen id: state `SUBMITTED`, no
artifacts. -/
def freshTask (p : TaskSendParams) : Task :=
  { id := p.id, sessionId := p.sessionId,
    status := { state := TaskState.submitted, message := none },
    artifacts := none }

/-- Modelled from the spec: `upsert` of the in-memory task store
(`InMemoryTaskManager.upsert_task`, a library method not under `src/`).
Per spec §4.1: returns the existing task if one with that id exists,
otherwise creates a task in state `SUBMITTED` with no artifacts and a
message history seeded with the initial message if present, and inserts
it. -/
def upsert_task (s : Store) (p : TaskSendParams) : Store × Task :=
  match lookupTask s p.id with
  | some t => (s, t)
  | none =>
      ({ tasks := s.tasks ++ [(p.id, freshTask p)],
         taskMessages := s.taskMessages ++ [(p.id, p.message.toList)] }, freshTask p)

/-- `TutorTaskManager._update_store` (src/tutor_task_manager.py
lines 67-87).  Returns the (possibly unchanged) store together with
either the updated task or the message of the raised `ValueError`
(`TaskNotFound`): on an unknown id the store is returned untouched.
Otherwise the status is overwritten, an optional status message is
appended to the history, and a non-`None` artifact list is appended to
the task's artifacts (initialized from empty when previously absent). -/
def update_store (s : Store) (tid : String) (status : TaskStatus)
    (artifacts : Option (List Artifact)) : Store × Except String Task :=
  match lookupTask s tid with
  | none => (s, Except.error ("Task " ++ tid ++ " not found"))
  | some task =>
      let task1 := { task with status := status }
      let msgs1 :=
        match status.message with
        | some m => appendTaskMessage s.taskMessages tid m
        | none => s.taskMessages
      let task2 :=
        match artifacts with
        | none => task1
        | some arts => { task1 with artifacts := some (task1.artifacts.getD [] ++ arts) }
      ({ tasks := setAssoc s.tasks tid task2, taskMessages := msgs1 }, Except.ok task2)

/-! ## TutorTaskManager request handling -/

/-- Modelled from the spec: `utils.are_modalities_compatible` (library
code not under `src/`).  Per spec §4.2 step 2: a set-intersection
compatibility check between the accepted output modes and the supported
content types. -/
def are_modalities_compatible (accepted supported : List String) : Bool :=
  accepted.any (fun m => supported.contains m)

/-- `TutorAgent.SUPPORTED_CONTENT_TYPES` (src/tutor_agent.py line 149). -/
def SUPPORTED_CONTENT_TYPES : List String := ["text", "text/plain"]

/-- `TutorTaskManager._get_user_query` (src/tutor_task_manager.py
lines 128-136): empty query when the message or its parts list is
absent/empty; the first part's text when it is a text part; otherwise
raises `ValueError("Only text parts are supported")`. -/
def get_user_query (p : TaskSendParams) : Except String String :=
  match p.message with
  | none => Except.ok ""
  | some m =>
      match m.parts with
      | [] => Except.ok ""
      | part :: _ =>
          match part with
          | Part.text t => Except.ok t
          | Part.other _ => Except.error "Only text parts are supported"

/-- What a send-task handler hands back to the transport layer: a
JSON-RPC error response (the incompatible-modality case, or a streaming
request-validation error), a normal `SendTaskResponse` wrapping the
final task, or an exception escaping the handler uncaught. -/
inductive SendOutcome where
  | rpcError (rid : String) (code : String)
  | response (rid : String) (task : Task)
  | raised (msg : String)
deriving DecidableEq, Repr

/-- `TutorTaskManager._invoke` (src/tutor_task_manager.py lines 89-126),
parametric in the injected agent (`self.agent`): `run` bundles the two
calls made inside the handler — `self.agent.invoke` followed by
`self.agent.get_formatted_response` — returning the updated agent state
and either the formatted text or the message of a raised exception.

The query extraction (line 91) happens BEFORE the `try` block, so its
`ValueError` escapes the handler uncaught.  Inside the `try`, a normal
agent return is stored as a `COMPLETED` task with one text artifact;
any exception is caught and stored as a `FAILED` task with one
`"Error: ..."` text artifact; an exception raised by that second
`update_store` call itself (task not in store) escapes uncaught. -/
def tm_invoke {σ : Type} (run : σ → String → String → σ × Except String String)
    (ag : σ) (s : Store) (req : SendTaskRequest) : σ × Store × SendOutcome :=
  match get_user_query req.params with
  | Except.error e => (ag, s, SendOutcome.raised e)
  | Except.ok query =>
      let r := run ag query req.params.sessionId
      let ag2 := r.1
      let storeFailed (s1 : Store) (msg : String) : Store × SendOutcome :=
        let u2 := update_store s1 req.params.id
          { state := TaskState.failed, message := none }
          (some [{ parts := [Part.text ("Error: " ++ msg)] }])
        match u2.2 with
        | Except.ok task => (u2.1, SendOutcome.response req.rid task)
        | Except.error e2 => (u2.1, SendOutcome.raised e2)
      match r.2 with
      | Except.ok formatted =>
          let u := update_store s req.params.id
            { state := TaskState.completed, message := none }
            (some [{ parts := [Part.text formatted] }])
          match u.2 with
          | Except.ok task => (ag2, u.1, SendOutcome.response req.rid task)
          | Except.error e => (ag2, storeFailed u.1 e)
      | Except.error e => (ag2, storeFailed s e)

/-- `TutorTaskManager.on_send_task` (src/tutor_task_manager.py
lines 36-54): the modality check first — failing it returns the
`IncompatibleContentTypes` JSON-RPC error with no store mutation at
all — then the upsert, then `_invoke`. -/
def on_send_task {σ : Type} (run : σ → String → String → σ × Except String String)
    (ag : σ) (s : Store) (req : SendTaskRequest) : σ × Store × SendOutcome :=
  if are_modalities_compatible req.params.acceptedOutputModes SUPPORTED_CONTENT_TYPES then
    let s1 := (upsert_task s req.params).1
    tm_invoke run ag s1 req
  else
    (ag, s, SendOutcome.rpcError req.rid "IncompatibleContentTypes")

/-- `TutorTaskManager.on_send_task_subscribe` (src/tutor_task_manager.py
lines 56-65), parametric in the inherited `_validate_request` (library
code not under `src/`; modelled from the spec: it checks the request
shape only and no modality check precedes the store mutation on this
path).  A validation error is returned as a JSON-RPC error response;
otherwise the task is upserted and `NotImplementedError("Streaming is
not supported by TutorAgent")` is raised, escaping the handler. -/
def on_send_task_subscribe (validate : SendTaskRequest → Option String)
    (s : Store) (req : SendTaskRequest) : Store × SendOutcome :=
  match validate req with
  | some err => (s, SendOutcome.rpcError req.rid err)
  | none =>
      ((upsert_task s req.params).1,
       SendOutcome.raised "Streaming is not supported by TutorAgent")

/-- The concrete agent behavior injected into the task manager
(src/__main__.py constructs `TutorTaskManager(agent=TutorAgent())`):
`invoke` followed by `get_formatted_response`; neither call raises, so
the behavior always returns formatted text. -/
def tutorRun (ag : TutorAgentState) (query sessionId : String) :
    TutorAgentState × Except String String :=
  let r := tutorInvoke ag query sessionId
  (r.1, Except.ok (get_formatted_response r.2))

/-! ## Claim-side (spec-worded) definitions -/

/-- The value of the last element of the list satisfying `p`, under `val`
(`none` when no element matches).  Used to state, in the spec's own
terms, which line of the query determines a parsed field. -/
def lastMatchValue (p : String → Bool) (val : String → String) : List String → Option String
  | [] => none
  | l :: ls =>
      match lastMatchValue p val ls with
      | some v => some v
      | none => if p l then some (val l) else none

/-- A line that `parse_student_info` treats as a topic line:
case-insensitive substring match of `"topic:"`. -/
def isTopicLine (l : String) : Bool :=
  containsSub (pyToLower l) "topic:"

/-- The field value a matching line contributes: the stripped text after
the line's first colon. -/
def lineFieldValue (l : String) : String :=
  pyStrip (afterFirstColon l)

/-- The value contributed by the last topic line of the query, if any. -/
def lastTopicValue (q : String) : Option String :=
  lastMatchValue isTopicLine lineFieldValue (pyLines q)

/-! ## Helper lemmas: parsing -/

theorem parseLine_topic (i : StudentInfo) (l : String) :
    (parseLine i l).topic = if isTopicLine l then lineFieldValue l else i.topic := by
  simp only [parseLine, isTopicLine, lineFieldValue]
  split
  · rfl
  · split
    · rfl
    · split <;> rfl

theorem foldl_parseLine_topic (ls : List String) (i : StudentInfo) :
    (ls.foldl parseLine i).topic =
      (lastMatchValue isTopicLine lineFieldValue ls).getD i.topic := by
  induction ls generalizing i with
  | nil => rfl
  | cons l ls ih =>
      rw [List.foldl_cons, ih]
      simp only [lastMatchValue]
      cases hm : lastMatchValue isTopicLine lineFieldValue ls with
      | some v => rfl
      | none =>
          rw [parseLine_topic]
          by_cases hp : isTopicLine l
          · simp [hp]
          · simp [hp]

theorem parse_topic_eq_lastTopicValue (q : String) :
    (parse_student_info q).topic = (lastTopicValue q).getD "" := by
  simp only [parse_student_info, lastTopicValue]
  exact foldl_parseLine_topic (pyLines q) ⟨"", "", ""⟩

theorem lastMatchValue_eq_none (p : String → Bool) (val : String → String)
    (ls : List String) (h : ∀ l ∈ ls, p l = false) :
    lastMatchValue p val ls = none := by
  induction ls with
  | nil => rfl
  | cons l ls ih =>
      simp only [lastMatchValue]
      rw [ih (fun x hx => h x (List.mem_cons_of_mem _ hx))]
      simp [h l (List.mem_cons_self _ _)]

theorem parse_topic_empty_of_no_topic_line (q : String)
    (h : ∀ l ∈ pyLines q, isTopicLine l = false) :
    (parse_student_info q).topic = "" := by
  rw [parse_topic_eq_lastTopicValue]
  simp only [lastTopicValue]
  rw [lastMatchValue_eq_none _ _ _ h]
  rfl

/-! ## Helper lemmas: the store -/

theorem lookupAssoc_append_self {α : Type} (l : List (String × α)) (k : String) (v : α)
    (h : lookupAssoc l k = none) : lookupAssoc (l ++ [(k, v)]) k = some v := by
  induction l with
  | nil => simp [lookupAssoc]
  | cons hd tl ih =>
      obtain ⟨k0, v0⟩ := hd
      by_cases hk : k0 = k
      · simp [lookupAssoc, hk] at h
      · simp only [lookupAssoc, List.cons_append, if_neg hk] at h ⊢
        exact ih h

theorem lookupAssoc_set_self {α : Type} (l : List (String × α)) (k : String) (v w : α)
    (h : lookupAssoc l k = some v) : lookupAssoc (setAssoc l k w) k = some w := by
  induction l with
  | nil => simp [lookupAssoc] at h
  | cons hd tl ih =>
      obtain ⟨k0, v0⟩ := hd
      by_cases hk : k0 = k
      · simp [setAssoc, lookupAssoc, hk]
      · simp only [lookupAssoc, if_neg hk] at h
        simp only [setAssoc, lookupAssoc, if_neg hk]
        exact ih h

theorem upsert_existing (s : Store) (p : TaskSendParams) (t : Task)
    (h : lookupTask s p.id = some t) : upsert_task s p = (s, t) := by
  simp [upsert_task, h]

theorem lookupTask_upsert (s : Store) (p : TaskSendParams) :
    lookupTask (upsert_task s p).1 p.id = some ((upsert_task s p).2) := by
  cases h : lookupTask s p.id with
  | some t =>
      simp only [upsert_task, h]
  | none =>
      have h' : lookupAssoc s.tasks p.id = none := h
      simp only [upsert_task, lookupTask, h, h']
      exact lookupAssoc_append_self _ _ _ h'

theorem upsert_fresh (s : Store) (p : TaskSendParams) (h : lookupTask s p.id = none) :
    upsert_task s p =
      ({ tasks := s.tasks ++ [(p.id, freshTask p)],
         taskMessages := s.taskMessages ++ [(p.id, p.message.toList)] },
       freshTask p) := by
  simp [upsert_task, h]

/-! ## Helper lemmas: modality compatibility -/

theorem compat_of_mode_mem (modes : List String)
    (h : "text" ∈ modes ∨ "text/plain" ∈ modes) :
    are_modalities_compatible modes SUPPORTED_CONTENT_TYPES = true := by
  simp only [are_modalities_compatible, List.any_eq_true]
  rcases h with h | h
  · exact ⟨"text", h, by decide⟩
  · exact ⟨"text/plain", h, by decide⟩

theorem compat_false_of_disjoint (modes : List String)
    (h : ∀ m ∈ modes, m ≠ "text" ∧ m ≠ "text/plain") :
    are_modalities_compatible modes SUPPORTED_CONTENT_TYPES = false := by
  simp only [are_modalities_compatible]
  rw [List.any_eq_false]
  intro m hm
  have h1 := (h m hm).1
  have h2 := (h m hm).2
  simp [SUPPORTED_CONTENT_TYPES, h1, h2]

/-! ## Claim C7 -/

/-- C7: `updateStatus` (`_update_store`) against a task id absent from
the store fails with the `TaskNotFound` error `"Task <id> not found"`,
and the failed call returns the store unchanged: no task with that id is
created as a side effect and no other task is modified. -/
theorem updateStore_unknownTask_notFound
    (s : Store) (tid : String) (status : TaskStatus) (arts : Option (List Artifact))
    (h : lookupTask s tid = none) :
    update_store s tid status arts = (s, Except.error ("Task " ++ tid ++ " not found")) := by
  have h' : lookupAssoc s.tasks tid = none := h
  simp [update_store, lookupTask, h']

theorem updateStore_unknownTask_notFound_witness :
    update_store emptyStore "missing"
        { state := TaskState.completed, message := none }
        (some [{ parts := [Part.text "x"] }]) =
      (emptyStore, Except.error "Task missing not found") :=
  updateStore_unknownTask_notFound emptyStore "missing"
    { state := TaskState.completed, message := none }
    (some [{ parts := [Part.text "x"] }]) rfl

/-! ## Claim C6 -/

/-- The task produced by a successful `_update_store` with a non-`None`
artifact list: status overwritten, artifacts appended (initialized from
empty when previously absent). -/
def updatedTask (t : Task) (status : TaskStatus) (arts : List Artifact) : Task :=
  { t with status := status, artifacts := some (t.artifacts.getD [] ++ arts) }

theorem update_store_found (s : Store) (tid : String) (status : TaskStatus)
    (arts : List Artifact) (t : Task) (h : lookupAssoc s.tasks tid = some t) :
    update_store s tid status (some arts) =
      ({ tasks := setAssoc s.tasks tid (updatedTask t status arts),
         taskMessages :=
           match status.message with
           | some m => appendTaskMessage s.taskMessages tid m
           | none => s.taskMessages },
       Except.ok (updatedTask t status arts)) := by
  simp only [update_store, lookupTask, h, updatedTask]

/-- C6: for a task present in the store, two sequential `_update_store`
calls with non-empty artifact lists leave the task's artifact list equal
to its previous artifacts followed by the first list followed by the
second: the final length is the sum of both additions, earlier artifacts
are never removed or reordered, and the list is initialized from empty
when previously absent (`Option.getD []`). -/
theorem updateStore_artifacts_appendOnly
    (s : Store) (tid : String) (t : Task) (st1 st2 : TaskStatus)
    (a1 a2 : List Artifact)
    (hfound : lookupTask s tid = some t) (h1 : a1 ≠ []) (h2 : a2 ≠ []) :
    ∃ s1 t1 s2 t2,
      update_store s tid st1 (some a1) = (s1, Except.ok t1) ∧
      update_store s1 tid st2 (some a2) = (s2, Except.ok t2) ∧
      t1.artifacts = some (t.artifacts.getD [] ++ a1) ∧
      t2.artifacts = some (t.artifacts.getD [] ++ a1 ++ a2) ∧
      (t2.artifacts.getD []).length =
        (t.artifacts.getD []).length + a1.length + a2.length ∧
      lookupTask s2 tid = some t2 := by
  have hfound' : lookupAssoc s.tasks tid = some t := hfound
  have e1 := update_store_found s tid st1 a1 t hfound'
  have hl1 : lookupAssoc (setAssoc s.tasks tid (updatedTask t st1 a1)) tid
      = some (updatedTask t st1 a1) :=
    lookupAssoc_set_self s.tasks tid t (updatedTask t st1 a1) hfound'
  have e2 := update_store_found
    { tasks := setAssoc s.tasks tid (updatedTask t st1 a1),
      taskMessages :=
        match st1.message with
        | some m => appendTaskMessage s.taskMessages tid m
        | none => s.taskMessages }
    tid st2 a2 (updatedTask t st1 a1) hl1
  have hl2 : lookupAssoc (setAssoc (setAssoc s.tasks tid (updatedTask t st1 a1)) tid
      (updatedTask (updatedTask t st1 a1) st2 a2)) tid
      = some (updatedTask (updatedTask t st1 a1) st2 a2) :=
    lookupAssoc_set_self (setAssoc s.tasks tid (updatedTask t st1 a1)) tid
      (updatedTask t st1 a1) (updatedTask (updatedTask t st1 a1) st2 a2) hl1
  refine ⟨_, _, _, _, e1, e2, rfl, rfl, ?_, hl2⟩
  simp [updatedTask, Nat.add_assoc]

/-- A one-task store used to exercise the append-only property. -/
def demoTask : Task :=
  { id := "t6", sessionId := "s6",
    status := { state := TaskState.submitted, message := none },
    artifacts := none }

/-- The store holding exactly `demoTask`. -/
def demoStore : Store :=
  { tasks := [("t6", demoTask)], taskMessages := [("t6", [])] }

/-- A terminal status with no message. -/
def completedStatus : TaskStatus :=
  { state := TaskState.completed, message := none }

/-- Two concrete single-artifact lists. -/
def firstArtifacts : List Artifact := [{ parts := [Part.text "first"] }]

def secondArtifacts : List Artifact := [{ parts := [Part.text "second"] }]

theorem updateStore_artifacts_appendOnly_witness :
    ∃ s1 t1 s2 t2,
      update_store demoStore "t6" completedStatus (some firstArtifacts) =
        (s1, Except.ok t1) ∧
      update_store s1 "t6" completedStatus (some secondArtifacts) =
        (s2, Except.ok t2) ∧
      t1.artifacts = some (demoTask.artifacts.getD [] ++ firstArtifacts) ∧
      t2.artifacts = some (demoTask.artifacts.getD [] ++ firstArtifacts ++ secondArtifacts) ∧
      (t2.artifacts.getD []).length =
        (demoTask.artifacts.getD []).length + firstArtifacts.length + secondArtifacts.length ∧
      lookupTask s2 "t6" = some t2 :=
  updateStore_artifacts_appendOnly demoStore "t6" demoTask
    completedStatus completedStatus firstArtifacts secondArtifacts
    (by decide) (by decide) (by decide)

/-! ## Claim C3 -/

/-- C3: a request whose accepted output modes share no element with
`{"text", "text/plain"}` makes `on_send_task` return the
`IncompatibleContentTypes` RPC error with the store (and agent)
returned exactly as given: no task is created and no task is modified. -/
theorem onSendTask_incompatibleModes_noMutation {σ : Type}
    (run : σ → String → String → σ × Except String String)
    (ag : σ) (s : Store) (req : SendTaskRequest)
    (h : ∀ m ∈ req.params.acceptedOutputModes, m ≠ "text" ∧ m ≠ "text/plain") :
    on_send_task run ag s req =
      (ag, s, SendOutcome.rpcError req.rid "IncompatibleContentTypes") := by
  have hc := compat_false_of_disjoint req.params.acceptedOutputModes h
  simp [on_send_task, hc]

/-- A request asking only for `application/json` output. -/
def jsonModesParams : TaskSendParams :=
  { id := "t3", sessionId := "s3", message := none,
    acceptedOutputModes := ["application/json"] }

/-- The request wrapping `jsonModesParams`. -/
def jsonModesRequest : SendTaskRequest :=
  { rid := "r3", params := jsonModesParams }

theorem onSendTask_incompatibleModes_noMutation_witness :
    on_send_task tutorRun initialTutorAgent emptyStore jsonModesRequest =
      (initialTutorAgent, emptyStore, SendOutcome.rpcError "r3" "IncompatibleContentTypes") :=
  onSendTask_incompatibleModes_noMutation tutorRun initialTutorAgent emptyStore
    jsonModesRequest (by decide)

/-! ## Claim C8 -/

/-- C8: a streaming request that passes request-shape validation makes
`on_send_task_subscribe` first upsert the task and then raise
`"Streaming is not supported by TutorAgent"`, which escapes the handler,
for every payload; the upserted task is present afterwards and is never
transitioned to a terminal state (a fresh task stays `SUBMITTED`, an
existing task keeps its previous record untouched).  The handler never
consults the agent: it takes no agent argument at all. -/
theorem onSendTaskSubscribe_streamingUnsupported
    (validate : SendTaskRequest → Option String) (s : Store) (req : SendTaskRequest)
    (hv : validate req = none) :
    on_send_task_subscribe validate s req =
      ((upsert_task s req.params).1,
        SendOutcome.raised "Streaming is not supported by TutorAgent") ∧
    lookupTask (upsert_task s req.params).1 req.params.id =
      some ((upsert_task s req.params).2) ∧
    (lookupTask s req.params.id = none →
      (upsert_task s req.params).2.status.state = TaskState.submitted) ∧
    (∀ t, lookupTask s req.params.id = some t → (upsert_task s req.params).2 = t) := by
  refine ⟨by simp [on_send_task_subscribe, hv], lookupTask_upsert s req.params, ?_, ?_⟩
  · intro h
    simp [upsert_task, freshTask, h]
  · intro t h
    simp [upsert_task, h]

/-- A streaming request whose accepted modes are not even compatible:
the subscribe path upserts it regardless. -/
def streamParams : TaskSendParams :=
  { id := "t8", sessionId := "s8", message := none,
    acceptedOutputModes := ["application/json"] }

/-- The streaming request wrapping `streamParams`. -/
def streamRequest : SendTaskRequest :=
  { rid := "r8", params := streamParams }

theorem onSendTaskSubscribe_streamingUnsupported_witness :
    on_send_task_subscribe (fun _ => none) emptyStore streamRequest =
      ((upsert_task emptyStore streamParams).1,
        SendOutcome.raised "Streaming is not supported by TutorAgent") ∧
    lookupTask (upsert_task emptyStore streamParams).1 "t8" =
      some ((upsert_task emptyStore streamParams).2) ∧
    (lookupTask emptyStore "t8" = none →
      (upsert_task emptyStore streamParams).2.status.state = TaskState.submitted) ∧
    (∀ t, lookupTask emptyStore "t8" = some t →
      (upsert_task emptyStore streamParams).2 = t) :=
  onSendTaskSubscribe_streamingUnsupported (fun _ => none) emptyStore streamRequest rfl

/-! ## Helper lemmas: the send-task pipeline -/

theorem onSendTask_compat {σ : Type}
    (run : σ → String → String → σ × Except String String)
    (ag : σ) (s : Store) (req : SendTaskRequest)
    (hc : are_modalities_compatible req.params.acceptedOutputModes
      SUPPORTED_CONTENT_TYPES = true) :
    on_send_task run ag s req = tm_invoke run ag (upsert_task s req.params).1 req := by
  simp [on_send_task, hc]

theorem tm_invoke_raise {σ : Type}
    (run : σ → String → String → σ × Except String String)
    (ag : σ) (s : Store) (req : SendTaskRequest) (e : String)
    (hq : get_user_query req.params = Except.error e) :
    tm_invoke run ag s req = (ag, s, SendOutcome.raised e) := by
  simp [tm_invoke, hq]

/-- The status written on the success path of `_invoke`. -/
def completedStatusNoMsg : TaskStatus :=
  { state := TaskState.completed, message := none }

/-- The status written on the failure path of `_invoke`. -/
def failedStatusNoMsg : TaskStatus :=
  { state := TaskState.failed, message := none }

/-- The single-text-part artifact `_invoke` builds from a string. -/
def textArtifact (txt : String) : Artifact :=
  { parts := [Part.text txt] }

theorem tm_invoke_ok {σ : Type}
    (run : σ → String → String → σ × Except String String)
    (ag ag2 : σ) (s : Store) (req : SendTaskRequest) (q out : String) (t : Task)
    (hq : get_user_query req.params = Except.ok q)
    (hrun : run ag q req.params.sessionId = (ag2, Except.ok out))
    (hl : lookupAssoc s.tasks req.params.id = some t) :
    tm_invoke run ag s req =
      (ag2,
       { tasks := setAssoc s.tasks req.params.id
           (updatedTask t completedStatusNoMsg [textArtifact out]),
         taskMessages := s.taskMessages },
       SendOutcome.response req.rid
         (updatedTask t completedStatusNoMsg [textArtifact out])) := by
  simp only [tm_invoke, hq, hrun]
  rw [update_store_found s req.params.id
    { state := TaskState.completed, message := none }
    [{ parts := [Part.text out] }] t hl]
  rfl

theorem tm_invoke_err {σ : Type}
    (run : σ → String → String → σ × Except String String)
    (ag ag2 : σ) (s : Store) (req : SendTaskRequest) (q e : String) (t : Task)
    (hq : get_user_query req.params = Except.ok q)
    (hrun : run ag q req.params.sessionId = (ag2, Except.error e))
    (hl : lookupAssoc s.tasks req.params.id = some t) :
    tm_invoke run ag s req =
      (ag2,
       { tasks := setAssoc s.tasks req.params.id
           (updatedTask t failedStatusNoMsg [textArtifact ("Error: " ++ e)]),
         taskMessages := s.taskMessages },
       SendOutcome.response req.rid
         (updatedTask t failedStatusNoMsg [textArtifact ("Error: " ++ e)])) := by
  simp only [tm_invoke, hq, hrun]
  rw [update_store_found s req.params.id
    { state := TaskState.failed, message := none }
    [{ parts := [Part.text ("Error: " ++ e)] }] t hl]
  rfl

/-! ## Claim C2 (corrected) -/

/-- The request used to exhibit the escaping `UnsupportedPartType`
fault: compatible modes, first message part not a text part. -/
def nonTextParams : TaskSendParams :=
  { id := "t2", sessionId := "s2",
    message := some { role := "user", parts := [Part.other "file"] },
    acceptedOutputModes := ["text"] }

/-- The request wrapping `nonTextParams`. -/
def nonTextRequest : SendTaskRequest :=
  { rid := "r2", params := nonTextParams }

/-- C2 counterexample: on a request that passes the output-mode check
and whose first message part is not a text part, `on_send_task` does NOT
resolve the task to `FAILED` and does not return a response at all: the
`ValueError("Only text parts are supported")` raised by
`_get_user_query` (called before the `try` block of `_invoke`,
src/tutor_task_manager.py line 91) escapes to the caller, and the
upserted task is left in its non-terminal `SUBMITTED` state with no
artifacts. -/
theorem onSendTask_nonTextPart_cex :
    (on_send_task tutorRun initialTutorAgent emptyStore nonTextRequest).2.2 =
      SendOutcome.raised "Only text parts are supported" ∧
    (∀ t : Task, (on_send_task tutorRun initialTutorAgent emptyStore nonTextRequest).2.2 ≠
      SendOutcome.response "r2" t) ∧
    lookupTask (on_send_task tutorRun initialTutorAgent emptyStore nonTextRequest).2.1 "t2" =
      some (freshTask nonTextParams) := by
  refine ⟨by decide, ?_, by decide⟩
  intro t
  have h : (on_send_task tutorRun initialTutorAgent emptyStore nonTextRequest).2.2 =
      SendOutcome.raised "Only text parts are supported" := by decide
  rw [h]
  simp

/-- C2 amended: on every request that passes the output-mode check and
whose message's first part is not a text part, `on_send_task` first
upserts the task and then the `UnsupportedPartType` fault escapes the
handler uncaught (outcome `raised "Only text parts are supported"`);
the store is left exactly as the upsert left it, so the task is never
transitioned to `FAILED` and no artifact is attached. -/
theorem onSendTask_nonTextPart_fault_escapes {σ : Type}
    (run : σ → String → String → σ × Except String String)
    (ag : σ) (s : Store) (req : SendTaskRequest)
    (m : Message) (k : String) (rest : List Part)
    (hmode : "text" ∈ req.params.acceptedOutputModes ∨
      "text/plain" ∈ req.params.acceptedOutputModes)
    (hmsg : req.params.message = some m)
    (hparts : m.parts = Part.other k :: rest) :
    on_send_task run ag s req =
      (ag, (upsert_task s req.params).1,
        SendOutcome.raised "Only text parts are supported") := by
  have hc := compat_of_mode_mem req.params.acceptedOutputModes hmode
  have hq : get_user_query req.params = Except.error "Only text parts are supported" := by
    simp [get_user_query, hmsg, hparts]
  rw [onSendTask_compat run ag s req hc]
  exact tm_invoke_raise run ag (upsert_task s req.params).1 req
    "Only text parts are supported" hq

theorem onSendTask_nonTextPart_fault_escapes_witness :
    on_send_task tutorRun initialTutorAgent emptyStore nonTextRequest =
      (initialTutorAgent, (upsert_task emptyStore nonTextParams).1,
        SendOutcome.raised "Only text parts are supported") :=
  onSendTask_nonTextPart_fault_escapes tutorRun initialTutorAgent emptyStore nonTextRequest
    { role := "user", parts := [Part.other "file"] } "file" []
    (Or.inl (by decide)) rfl rfl

/-! ## Claim C1 -/

theorem tutorInvoke_error_of_topic_empty (ag : TutorAgentState) (q sid : String)
    (h : (parse_student_info q).topic = "") :
    tutorInvoke ag q sid = (ag, InvokeResult.error "Please specify a topic of interest.") := by
  simp [tutorInvoke, h]

theorem tutorRun_error_of_topic_empty (ag : TutorAgentState) (q sid : String)
    (h : (parse_student_info q).topic = "") :
    tutorRun ag q sid = (ag, Except.ok "Error: Please specify a topic of interest.") := by
  simp [tutorRun, tutorInvoke_error_of_topic_empty ag q sid h, get_formatted_response]

/-- The COMPLETED task carrying the missing-topic soft-error artifact. -/
def missingTopicTask (p : TaskSendParams) : Task :=
  { id := p.id, sessionId := p.sessionId,
    status := { state := TaskState.completed, message := none },
    artifacts := some [{ parts := [Part.text "Error: Please specify a topic of interest."] }] }

/-- C1: a request with an accepted output mode in `{"text","text/plain"}`,
whose message's first part is a text part none of whose lines mentions a
topic, and whose task id is new to the store, resolves to terminal state
`COMPLETED` — not `FAILED` — with exactly one artifact whose single text
part is `"Error: Please specify a topic of interest."`; the agent state
is returned unchanged. -/
theorem onSendTask_missingTopic_completed
    (ag : TutorAgentState) (s : Store) (req : SendTaskRequest)
    (m : Message) (q : String) (rest : List Part)
    (hmode : "text" ∈ req.params.acceptedOutputModes ∨
      "text/plain" ∈ req.params.acceptedOutputModes)
    (hmsg : req.params.message = some m)
    (hparts : m.parts = Part.text q :: rest)
    (hnotopic : ∀ l ∈ pyLines q, isTopicLine l = false)
    (hfresh : lookupTask s req.params.id = none) :
    ∃ s2, on_send_task tutorRun ag s req =
      (ag, s2, SendOutcome.response req.rid (missingTopicTask req.params)) := by
  have hc := compat_of_mode_mem req.params.acceptedOutputModes hmode
  have hq : get_user_query req.params = Except.ok q := by
    simp [get_user_query, hmsg, hparts]
  have htopic := parse_topic_empty_of_no_topic_line q hnotopic
  have hrun := tutorRun_error_of_topic_empty ag q req.params.sessionId htopic
  have hfresh' : lookupAssoc s.tasks req.params.id = none := hfresh
  have hup := upsert_fresh s req.params hfresh
  have hlook : lookupAssoc (s.tasks ++ [(req.params.id, freshTask req.params)])
      req.params.id = some (freshTask req.params) :=
    lookupAssoc_append_self s.tasks req.params.id (freshTask req.params) hfresh'
  have hmain := onSendTask_compat tutorRun ag s req hc
  rw [hup] at hmain
  rw [tm_invoke_ok tutorRun ag ag
    { tasks := s.tasks ++ [(req.params.id, freshTask req.params)],
      taskMessages := s.taskMessages ++ [(req.params.id, req.params.message.toList)] }
    req q "Error: Please specify a topic of interest."
    (freshTask req.params) hq hrun hlook] at hmain
  exact ⟨_, hmain⟩

/-- The request used to exercise the missing-topic path. -/
def missingTopicParams : TaskSendParams :=
  { id := "t1", sessionId := "s1",
    message := some { role := "user", parts := [Part.text "hello"] },
    acceptedOutputModes := ["text"] }

/-- The request wrapping `missingTopicParams`. -/
def missingTopicRequest : SendTaskRequest :=
  { rid := "r1", params := missingTopicParams }

theorem onSendTask_missingTopic_completed_witness :
    ∃ s2, on_send_task tutorRun initialTutorAgent emptyStore missingTopicRequest =
      (initialTutorAgent, s2,
        SendOutcome.response "r1" (missingTopicTask missingTopicParams)) :=
  onSendTask_missingTopic_completed initialTutorAgent emptyStore missingTopicRequest
    { role := "user", parts := [Part.text "hello"] } "hello" []
    (Or.inl (by decide)) rfl rfl (by decide) rfl

/-! ## Claim C4 -/

/-- The FAILED task carrying the fault-derived error artifact. -/
def failedTask (p : TaskSendParams) (e : String) : Task :=
  { id := p.id, sessionId := p.sessionId,
    status := { state := TaskState.failed, message := none },
    artifacts := some [{ parts := [Part.text ("Error: " ++ e)] }] }

/-- C4: for every agent behavior and every request that passes the
output-mode check, reaches the agent-invocation step (the query was
extracted from a text part or is empty) and whose task id is new to the
store, if the agent invocation or response formatting raises any
exception `e`, `on_send_task` catches it, transitions the task to
terminal state `FAILED` with exactly one text artifact reading
`"Error: " ++ e`, and returns a normal response wrapping that task: the
fault does not propagate to the transport layer. -/
theorem onSendTask_agentFault_failed {σ : Type}
    (run : σ → String → String → σ × Except String String)
    (ag ag2 : σ) (s : Store) (req : SendTaskRequest) (q e : String)
    (hmode : "text" ∈ req.params.acceptedOutputModes ∨
      "text/plain" ∈ req.params.acceptedOutputModes)
    (hq : get_user_query req.params = Except.ok q)
    (hrun : run ag q req.params.sessionId = (ag2, Except.error e))
    (hfresh : lookupTask s req.params.id = none) :
    ∃ s2, on_send_task run ag s req =
      (ag2, s2, SendOutcome.response req.rid (failedTask req.params e)) := by
  have hc := compat_of_mode_mem req.params.acceptedOutputModes hmode
  have hfresh' : lookupAssoc s.tasks req.params.id = none := hfresh
  have hup := upsert_fresh s req.params hfresh
  have hlook : lookupAssoc (s.tasks ++ [(req.params.id, freshTask req.params)])
      req.params.id = some (freshTask req.params) :=
    lookupAssoc_append_self s.tasks req.params.id (freshTask req.params) hfresh'
  have hmain := onSendTask_compat run ag s req hc
  rw [hup] at hmain
  rw [tm_invoke_err run ag ag2
    { tasks := s.tasks ++ [(req.params.id, freshTask req.params)],
      taskMessages := s.taskMessages ++ [(req.params.id, req.params.message.toList)] }
    req q e (freshTask req.params) hq hrun hlook] at hmain
  exact ⟨_, hmain⟩

/-- A request reaching the agent step with an empty query. -/
def faultyParams : TaskSendParams :=
  { id := "t4", sessionId := "s4", message := none,
    acceptedOutputModes := ["text/plain"] }

/-- The request wrapping `faultyParams`. -/
def faultyRequest : SendTaskRequest :=
  { rid := "r4", params := faultyParams }

/-- An agent behavior that always raises. -/
def alwaysRaisingRun : Unit → String → String → Unit × Except String String :=
  fun _ _ _ => ((), Except.error "boom")

theorem onSendTask_agentFault_failed_witness :
    ∃ s2, on_send_task alwaysRaisingRun () emptyStore faultyRequest =
      ((), s2, SendOutcome.response "r4" (failedTask faultyParams "boom")) :=
  onSendTask_agentFault_failed alwaysRaisingRun () () emptyStore faultyRequest "" "boom"
    (Or.inr (by decide)) rfl rfl rfl

/-! ## Claim C5 -/

/-- The task carried by a normal response outcome, if any. -/
def outcomeTask : SendOutcome → Option Task
  | SendOutcome.response _ t => some t
  | _ => none

/-- The state of an optional task. -/
def taskStateOf : Option Task → Option TaskState
  | some t => some t.status.state
  | none => none

/-- The text of the single text part of the single artifact of a task:
`some` exactly when the task has exactly one artifact holding exactly
one text part. -/
def singleArtifactText : Option Task → Option String
  | some t =>
      match t.artifacts with
      | some [a] =>
          match a.parts with
          | [Part.text txt] => some txt
          | _ => none
      | _ => none
  | none => none

/-- The three-line well-formed query of the spec's scenario. -/
def wellFormedQuery : String :=
  "Topic: Machine Learning\nBackground: Basic Python\nGoals: Build ML models"

/-- The params carrying `wellFormedQuery` as a single text part. -/
def wellFormedParams : TaskSendParams :=
  { id := "task-5", sessionId := "sess-5",
    message := some { role := "user", parts := [Part.text wellFormedQuery] },
    acceptedOutputModes := ["text"] }

/-- The request wrapping `wellFormedParams`. -/
def wellFormedRequest : SendTaskRequest :=
  { rid := "req-5", params := wellFormedParams }

/-- The outcome `on_send_task` hands back for the well-formed scenario,
starting from a fresh store and a fresh agent. -/
def wellFormedOutcome : SendOutcome :=
  (on_send_task tutorRun initialTutorAgent emptyStore wellFormedRequest).2.2

set_option maxRecDepth 1000000 in
/-- C5: the query `"Topic: Machine Learning\nBackground: Basic
Python\nGoals: Build ML models"` resolves the task to `COMPLETED` with
exactly one artifact whose single text part contains the sections
"Student Assessment", "Identified Learning Gaps" — with exactly two
gaps, of severities 3/5 and 4/5 — "Recommended Learning Resources",
"Learning Milestones" (numbered 1., 2.), and the line
"Estimated Time to Complete: 20 hours". -/
theorem onSendTask_wellFormed_scenario :
    taskStateOf (outcomeTask wellFormedOutcome) = some TaskState.completed ∧
    (outcomeTask wellFormedOutcome).map (fun t => (t.artifacts.getD []).length) = some 1 ∧
    (singleArtifactText (outcomeTask wellFormedOutcome)).map (fun txt =>
      containsSub txt "## Student Assessment" &&
      containsSub txt "## Identified Learning Gaps" &&
      (countSub txt "(Severity:" == 2) &&
      containsSub txt "(Severity: 3/5)" &&
      containsSub txt "(Severity: 4/5)" &&
      containsSub txt "## Recommended Learning Resources" &&
      containsSub txt "## Learning Milestones" &&
      containsSub txt "\n1. " &&
      containsSub txt "\n2. " &&
      containsSub txt "Estimated Time to Complete: 20 hours") = some true := by
  refine ⟨by decide, by decide, by decide⟩

/-! ## Claim C9 (corrected) -/

set_option maxRecDepth 1000000 in
/-- C9 counterexample: `TutorAgent.invoke` does NOT leave all fields of
the agent unchanged.  On the query `"Topic: ML"` it overwrites both the
stored assessment-task description and the stored materials-task
description with their formatted versions (src/tutor_agent.py lines 259
and 290), so the agent is not stateless per invocation. -/
theorem tutorInvoke_mutates_agent_cex :
    (tutorInvoke initialTutorAgent "Topic: ML" "s1").1.assessment_task_description ≠
      initialTutorAgent.assessment_task_description ∧
    (tutorInvoke initialTutorAgent "Topic: ML" "s1").1.materials_task_description ≠
      initialTutorAgent.materials_task_description := by
  exact ⟨by decide, by decide⟩

/-- C9 amended: `invoke` leaves the agent unchanged when it returns the
missing-topic soft error; whenever a topic is parsed and the two
`str.format` calls return normally — always the case on a freshly
constructed agent — it overwrites the stored assessment-task and
materials-task descriptions with the formatted strings (substituted in
one pass, defaults applied to missing background/goals), so a second
invoke on the same instance starts from mutated task descriptions. -/
theorem tutorInvoke_frame_characterization (ag : TutorAgentState) (q sid : String)
    (d1 d2 : String)
    (h1 : pyFormat ag.assessment_task_description (assessKwargs (parse_student_info q)) =
      Except.ok d1)
    (h2 : pyFormat ag.materials_task_description (materialsKwargs (parse_student_info q)) =
      Except.ok d2) :
    ((parse_student_info q).topic = "" → (tutorInvoke ag q sid).1 = ag) ∧
    ((parse_student_info q).topic ≠ "" → (tutorInvoke ag q sid).1 =
      { assessment_task_description := d1, materials_task_description := d2 }) := by
  constructor
  · intro h
    rw [tutorInvoke_error_of_topic_empty ag q sid h]
  · intro h
    simp only [tutorInvoke, if_neg h, h1, h2, tutorInvokeRest]

/-- The payload of a successful formatting call, used to name concrete
formatted descriptions in closed statements. -/
def exceptValue : Except String String → String
  | Except.ok s => s
  | Except.error _ => ""

set_option maxRecDepth 1000000 in
theorem tutorInvoke_frame_characterization_witness :
    ((parse_student_info "Topic: ML").topic = "" →
      (tutorInvoke initialTutorAgent "Topic: ML" "sess-9").1 = initialTutorAgent) ∧
    ((parse_student_info "Topic: ML").topic ≠ "" →
      (tutorInvoke initialTutorAgent "Topic: ML" "sess-9").1 =
        { assessment_task_description :=
            exceptValue (pyFormat initialTutorAgent.assessment_task_description
              (assessKwargs (parse_student_info "Topic: ML"))),
          materials_task_description :=
            exceptValue (pyFormat initialTutorAgent.materials_task_description
              (materialsKwargs (parse_student_info "Topic: ML"))) }) :=
  tutorInvoke_frame_characterization initialTutorAgent "Topic: ML" "sess-9"
    (exceptValue (pyFormat initialTutorAgent.assessment_task_description
      (assessKwargs (parse_student_info "Topic: ML"))))
    (exceptValue (pyFormat initialTutorAgent.materials_task_description
      (materialsKwargs (parse_student_info "Topic: ML"))))
    (by rfl) (by rfl)

/-! ## Claim C10 (corrected) -/

/-- A query whose first line has a topic value and whose last
topic-mentioning line has an empty value. -/
def doubleTopicQuery : String := "Topic: ML\nTopic:"

/-- C10 counterexample: the claimed equivalence — soft error iff NO line
contains `"topic:"` with non-empty text after its first colon — fails on
`"Topic: ML\nTopic:"`: the first line carries the non-empty topic value
`"ML"`, yet `invoke` still returns the soft error, because the later
bare `"Topic:"` line overwrites the field with the empty string. -/
theorem tutorInvoke_topicIff_cex :
    (tutorInvoke initialTutorAgent doubleTopicQuery "s").2 =
      InvokeResult.error "Please specify a topic of interest." ∧
    ∃ l ∈ pyLines doubleTopicQuery, isTopicLine l = true ∧ lineFieldValue l ≠ "" := by
  refine ⟨by decide, ⟨"Topic: ML", by decide, by decide, by decide⟩⟩

theorem failed_prefix_ne (e : String) :
    "Failed to generate learning plan: " ++ e ≠ "Please specify a topic of interest." := by
  intro h
  have h0 : ("Failed to generate learning plan: " ++ e).data.head? =
      ("Please specify a topic of interest." : String).data.head? :=
    congrArg (fun s => s.data.head?) h
  have hF : ("Failed to generate learning plan: " ++ e).data.head? = some 'F' := rfl
  have hP : ("Please specify a topic of interest." : String).data.head? = some 'P' := rfl
  rw [hF, hP] at h0
  exact absurd h0 (by decide)

theorem tutorInvoke_ne_missing_of_topic_nonempty (ag : TutorAgentState) (q sid : String)
    (h : (parse_student_info q).topic ≠ "") :
    (tutorInvoke ag q sid).2 ≠ InvokeResult.error "Please specify a topic of interest." := by
  intro he
  simp only [tutorInvoke, if_neg h] at he
  cases hf1 : pyFormat ag.assessment_task_description (assessKwargs (parse_student_info q)) with
  | error e =>
      simp only [hf1] at he
      exact failed_prefix_ne e (InvokeResult.error.inj he)
  | ok d1 =>
      simp only [hf1] at he
      cases hf2 : pyFormat ag.materials_task_description
          (materialsKwargs (parse_student_info q)) with
      | error e =>
          simp only [hf2] at he
          exact failed_prefix_ne e (InvokeResult.error.inj he)
      | ok d2 =>
          simp only [hf2, tutorInvokeRest] at he
          exact InvokeResult.noConfusion he

theorem tutorInvoke_ok_of_formats (ag : TutorAgentState) (q sid : String) (d1 d2 : String)
    (h : (parse_student_info q).topic ≠ "")
    (h1 : pyFormat ag.assessment_task_description (assessKwargs (parse_student_info q)) =
      Except.ok d1)
    (h2 : pyFormat ag.materials_task_description (materialsKwargs (parse_student_info q)) =
      Except.ok d2) :
    ∃ a p, (tutorInvoke ag q sid).2 = InvokeResult.ok a p := by
  cases hr : (tutorInvoke ag q sid).2 with
  | ok a p => exact ⟨a, p, rfl⟩
  | error msg =>
      simp only [tutorInvoke, if_neg h, h1, h2, tutorInvokeRest] at hr
      exact InvokeResult.noConfusion hr

/-- C10 amended: `invoke` returns the soft error
`{"error": "Please specify a topic of interest."}` iff the value of the
LAST line containing `"topic:"` (case-insensitively) is empty after
stripping — in particular also when an earlier line carried a non-empty
topic — or no such line exists (a failing `str.format` call on a reused
agent yields the distinct `"Failed to generate learning plan: ..."`
error, never this one); the parsed topic is exactly that last matching
line's value; and whenever a topic is parsed and the two
description-formatting calls return normally — always the case on a
fresh agent — missing background and goals never cause an error: the
call returns the normal result with the documented defaults
substituted. -/
theorem tutorInvoke_error_iff_lastTopic (ag : TutorAgentState) (q sid : String) :
    (parse_student_info q).topic = (lastTopicValue q).getD "" ∧
    ((tutorInvoke ag q sid).2 = InvokeResult.error "Please specify a topic of interest." ↔
      (lastTopicValue q).getD "" = "") ∧
    (∀ d1 d2,
      pyFormat ag.assessment_task_description (assessKwargs (parse_student_info q)) =
        Except.ok d1 →
      pyFormat ag.materials_task_description (materialsKwargs (parse_student_info q)) =
        Except.ok d2 →
      (lastTopicValue q).getD "" ≠ "" →
      ∃ a p, (tutorInvoke ag q sid).2 = InvokeResult.ok a p) := by
  have hpt := parse_topic_eq_lastTopicValue q
  refine ⟨hpt, ?_, ?_⟩
  · constructor
    · intro he
      by_contra hne
      exact tutorInvoke_ne_missing_of_topic_nonempty ag q sid
        (by rw [hpt]; exact hne) he
    · intro hval
      have h : (parse_student_info q).topic = "" := by rw [hpt]; exact hval
      rw [tutorInvoke_error_of_topic_empty ag q sid h]
  · intro d1 d2 h1 h2 hne
    exact tutorInvoke_ok_of_formats ag q sid d1 d2 (by rw [hpt]; exact hne) h1 h2

set_option maxRecDepth 1000000 in
theorem tutorInvoke_error_iff_lastTopic_witness :
    (parse_student_info wellFormedQuery).topic = (lastTopicValue wellFormedQuery).getD "" ∧
    ((tutorInvoke initialTutorAgent wellFormedQuery "sess-5").2 =
        InvokeResult.error "Please specify a topic of interest." ↔
      (lastTopicValue wellFormedQuery).getD "" = "") ∧
    (∀ d1 d2,
      pyFormat initialTutorAgent.assessment_task_description
        (assessKwargs (parse_student_info wellFormedQuery)) = Except.ok d1 →
      pyFormat initialTutorAgent.materials_task_description
        (materialsKwargs (parse_student_info wellFormedQuery)) = Except.ok d2 →
      (lastTopicValue wellFormedQuery).getD "" ≠ "" →
      ∃ a p, (tutorInvoke initialTutorAgent wellFormedQuery "sess-5").2 =
        InvokeResult.ok a p) :=
  tutorInvoke_error_iff_lastTopic initialTutorAgent wellFormedQuery "sess-5"

end TutorModel
